import Mathlib

/-!
Shallow embedding of the `imageless` image-processing core (src/lib.rs,
src/operations/mod.rs, src/operations/crop.rs, src/operations/resize.rs).

Modelling conventions:
* Rust `u32` pixel counts are modelled as `Nat` (no claim under scrutiny
  involves 32-bit overflow), `u16` magnitudes as `Nat`, `i32` as `Int`.
* Rust `f32` values (percentages, blur sigma) are modelled as exact
  rationals `ℚ`; every finite `f32` is a rational, and the order
  comparisons the code performs on them are exact.  The `as u32`
  float-to-integer cast truncates toward zero and clamps negatives to 0,
  which on `ℚ` is `Int.toNat ∘ Int.floor`.
* A Rust `assert!` failure (a panic / abort) is modelled by the `fatal`
  outcome; fallible steps inside a computation that can panic return
  `Option`, with `none` marking the panic.
* The external `image` crate (the pixel-transform collaborator) is out of
  scope for the spec; its calls are modelled as opaque constructors of
  `DynamicImage` that record exactly the arguments the core passes them.
-/

namespace Imageless

/-- Embeds `struct PixelUnit { pixels: u32 }` (src/lib.rs). -/
structure PixelUnit where
  pixels : Nat
deriving DecidableEq, Repr

/-- Embeds `impl Sub for PixelUnit` (src/lib.rs): `assert!(self.pixels > rhs.pixels)`
then subtract.  The assertion failure (a fatal abort) is modelled as `none`. -/
def PixelUnit.sub (self rhs : PixelUnit) : Option PixelUnit :=
  if self.pixels > rhs.pixels then some ⟨self.pixels - rhs.pixels⟩ else none

/-- Embeds `impl Add for PixelUnit` (src/lib.rs). -/
def PixelUnit.add (self rhs : PixelUnit) : PixelUnit :=
  ⟨self.pixels + rhs.pixels⟩

/-- Embeds `struct PercentageUnit { percentage: f32 }` (src/lib.rs); the f32 is
modelled as an exact rational. -/
structure PercentageUnit where
  percentage : ℚ
deriving DecidableEq, Repr

/-- Embeds `struct PercentageOutOfRangeError { percentage: f32 }` (src/lib.rs). -/
structure PercentageOutOfRangeError where
  percentage : ℚ
deriving DecidableEq, Repr

/-- Embeds `impl TryFrom<f32> for PercentageUnit` (src/lib.rs):
reject values outside the closed range `0.0..=1.0`. -/
def PercentageUnit.tryFrom (value : ℚ) :
    Except PercentageOutOfRangeError PercentageUnit :=
  if 0 ≤ value ∧ value ≤ 1 then .ok ⟨value⟩ else .error ⟨value⟩

/-- Embeds `enum Unit` (src/lib.rs). -/
inductive Unit where
  | pixel (p : PixelUnit)
  | percentage (p : PercentageUnit)
deriving DecidableEq, Repr

/-- Embeds `Unit::as_pixel` (src/lib.rs): a pixel value passes through
unchanged; a percentage multiplies the reference dimension and casts the
float product to `u32`, truncating toward zero (negatives clamp to 0). -/
def Unit.as_pixel (self : Unit) (dimension : PixelUnit) : PixelUnit :=
  match self with
  | .pixel pixels => pixels
  | .percentage pct =>
      ⟨(⌊(dimension.pixels : ℚ) * pct.percentage⌋).toNat⟩

/-- Embeds `struct Coordinate { x: Unit, y: Unit }` (src/lib.rs). -/
structure Coordinate where
  x : Unit
  y : Unit
deriving DecidableEq, Repr

/-- Embeds `enum CropOrigin` (src/operations/crop.rs). -/
inductive CropOrigin where
  | minimum (c : Coordinate)
  | maximum (c : Coordinate)
  | cropStart (c : Coordinate)
deriving DecidableEq, Repr

/-- Embeds `CropOrigin::as_pixel_coordinate` (src/operations/crop.rs).
The `Maximum` arm performs two `PixelUnit` subtractions that can hit the
fatal assertion; `none` marks that abort (x is computed before y, as in
the source). -/
def CropOrigin.as_pixel_coordinate (self : CropOrigin)
    (x y width height : PixelUnit) : Option (PixelUnit × PixelUnit) :=
  match self with
  | .minimum coordinate =>
      some (coordinate.x.as_pixel width, coordinate.y.as_pixel height)
  | .maximum coordinate => do
      let xr ← width.sub (coordinate.x.as_pixel width)
      let yr ← height.sub (coordinate.y.as_pixel height)
      pure (xr, yr)
  | .cropStart coordinate =>
      some (x.add (coordinate.x.as_pixel width), y.add (coordinate.y.as_pixel height))

/-- Embeds `struct Crop { from: Coordinate, to: CropOrigin }`
(src/operations/crop.rs); `from` and `to` are Lean keywords, hence the
trailing underscores. -/
structure Crop where
  from_ : Coordinate
  to_ : CropOrigin
deriving DecidableEq, Repr

/-- Embeds the `OperationError` message built by `Crop::process`
(src/operations/crop.rs): the format string fixes which axis was violated
("Bottom cannot be less than top ..." / "Right cannot be less than left ...")
and interpolates the operation's own parameters via `{self:?}`. -/
inductive OperationError where
  | bottomLtTop (op : Crop)
  | rightLtLeft (op : Crop)
deriving DecidableEq, Repr

/-- Embeds `enum FilterType` (src/operations/resize.rs). -/
inductive FilterType where
  | nearest
  | triangle
  | catmullRom
  | gaussian
  | lanczos3
deriving DecidableEq, Repr

/-- Embeds `enum CropMode` (src/operations/resize.rs). -/
inductive CropMode where
  | preserve
  | fill
  | exact
deriving DecidableEq, Repr

/-- Embeds `struct Resize` (src/operations/resize.rs). -/
structure Resize where
  width : Unit
  height : Unit
  filter : FilterType
  crop_mode : CropMode
deriving DecidableEq, Repr

/-- Embeds `struct Grayscale {}` (src/operations/mod.rs). -/
structure Grayscale where
deriving DecidableEq, Repr

/-- Embeds `struct Blur { sigma: f32 }` (src/operations/mod.rs). -/
structure Blur where
  sigma : ℚ
deriving DecidableEq, Repr

/-- Embeds `enum AdjustBrightness { Darken(u16), Brighten(u16) }`
(src/operations/mod.rs). -/
inductive AdjustBrightness where
  | darken (value : Nat)
  | brighten (value : Nat)
deriving DecidableEq, Repr

/-- Model of the external `image::DynamicImage` together with the collaborator
calls the core makes on it.  Each pixel-transform call is an opaque
constructor recording the exact arguments passed through; the pixel math
itself is out of the core's scope. -/
inductive DynamicImage where
  | source (width height : Nat)
  | grayscale (i : DynamicImage)
  | blur (sigma : ℚ) (i : DynamicImage)
  | brighten (value : Int) (i : DynamicImage)
  | crop_imm (i : DynamicImage) (x y width height : Nat)
  | resize (i : DynamicImage) (width height : Nat) (filter : FilterType)
  | resize_exact (i : DynamicImage) (width height : Nat) (filter : FilterType)
  | resize_to_fill (i : DynamicImage) (width height : Nat) (filter : FilterType)
deriving DecidableEq, Repr

/-- Dimensions of a model image (`GenericImageView::dimensions`).  A collaborator
result carries the target rectangle it was asked for; the point-wise transforms
preserve dimensions.  (For the aspect-preserving `resize` the real collaborator
may return a smaller box; no claim under scrutiny depends on the dimensions of a
resize result, so the requested box is recorded.) -/
def DynamicImage.dimensions : DynamicImage → Nat × Nat
  | .source w h => (w, h)
  | .grayscale i => i.dimensions
  | .blur _ i => i.dimensions
  | .brighten _ i => i.dimensions
  | .crop_imm _ _ _ w h => (w, h)
  | .resize _ w h _ => (w, h)
  | .resize_exact _ w h _ => (w, h)
  | .resize_to_fill _ w h _ => (w, h)

/-- Outcome of one `Process::process` call: success, a recoverable
`OperationError`, or a fatal abort (Rust `assert!` failure). -/
inductive ProcResult where
  | ok (image : DynamicImage)
  | error (e : OperationError)
  | fatal
deriving DecidableEq, Repr

/-- Embeds `impl Process for Crop` (src/operations/crop.rs).  Note the source
resolves `from.x` against the image HEIGHT and `from.y` against the image
WIDTH (lines 53-54), while the far corner resolves x against width and y
against height.  After the two `<` validations, `crop_imm` receives
`right - left` and `bottom - top`, each a fatal-on-underflow subtraction
(`right - left` is evaluated first, as in the source's argument order). -/
def Crop.process (self : Crop) (image : DynamicImage) : ProcResult :=
  let width : PixelUnit := ⟨image.dimensions.1⟩
  let height : PixelUnit := ⟨image.dimensions.2⟩
  let left := self.from_.x.as_pixel height
  let top := self.from_.y.as_pixel width
  match self.to_.as_pixel_coordinate left top width height with
  | none => .fatal
  | some (right, bottom) =>
      if bottom.pixels < top.pixels then .error (.bottomLtTop self)
      else if right.pixels < left.pixels then .error (.rightLtLeft self)
      else
        match right.sub left, bottom.sub top with
        | some w, some h =>
            .ok (.crop_imm image left.pixels top.pixels w.pixels h.pixels)
        | _, _ => .fatal

/-- Embeds `impl Process for Grayscale` (src/operations/mod.rs). -/
def Grayscale.process (_self : Grayscale) (image : DynamicImage) : ProcResult :=
  .ok (.grayscale image)

/-- Embeds `impl Process for Blur` (src/operations/mod.rs). -/
def Blur.process (self : Blur) (image : DynamicImage) : ProcResult :=
  .ok (.blur self.sigma image)

/-- Embeds `impl Process for AdjustBrightness` (src/operations/mod.rs). -/
def AdjustBrightness.process (self : AdjustBrightness) (image : DynamicImage) :
    ProcResult :=
  let value : Int :=
    match self with
    | .darken value => -(value : Int)
    | .brighten value => (value : Int)
  .ok (.brighten value image)

/-- Embeds `impl Process for Resize` (src/operations/resize.rs): resolve the
target units against the current dimensions and dispatch on `crop_mode` to
the collaborator's fit / exact / cover-and-crop resize. -/
def Resize.process (self : Resize) (image : DynamicImage) : ProcResult :=
  let width : PixelUnit := ⟨image.dimensions.1⟩
  let height : PixelUnit := ⟨image.dimensions.2⟩
  let result :=
    match self.crop_mode with
    | .preserve =>
        DynamicImage.resize image (self.width.as_pixel width).pixels
          (self.height.as_pixel height).pixels self.filter
    | .exact =>
        DynamicImage.resize_exact image (self.width.as_pixel width).pixels
          (self.height.as_pixel height).pixels self.filter
    | .fill =>
        DynamicImage.resize_to_fill image (self.width.as_pixel width).pixels
          (self.height.as_pixel height).pixels self.filter
  .ok result

/-- Embeds `enum Operation` (src/lib.rs). -/
inductive Operation where
  | adjustBrightness (a : AdjustBrightness)
  | blur (b : Blur)
  | crop (c : Crop)
  | grayscale (g : Grayscale)
  | resize (r : Resize)
deriving DecidableEq, Repr

/-- Embeds `Operation::get_process` followed by the trait call: dispatch to
the variant's `process` (src/lib.rs). -/
def Operation.process (self : Operation) (image : DynamicImage) : ProcResult :=
  match self with
  | .adjustBrightness a => a.process image
  | .blur b => b.process image
  | .crop c => c.process image
  | .grayscale g => g.process image
  | .resize r => r.process image

/-- Embeds the pipeline loop of `process_file` (src/lib.rs lines 216-218):
fold the operation list in order, feeding each output image to the next
operation, returning the first error (or fatal abort) immediately.  The
file-decoding prologue is the image-source collaborator and is out of scope;
the loop starts from an already decoded image. -/
def process_operations (image : DynamicImage) : List Operation → ProcResult
  | [] => .ok image
  | operation :: rest =>
      match operation.process image with
      | .ok next => process_operations next rest
      | .error e => .error e
      | .fatal => .fatal

/-- C6: resolving a percentage unit against a reference dimension yields exactly
the floor of the product — the product truncated toward zero, not rounded
(dimension 3 with percentage 0.99 gives 2, not 3) — and resolving a pixel unit
returns it unchanged for any dimension; resolution is a total pure function. -/
theorem as_pixel_floor_and_passthrough (d : PixelUnit) (p : PercentageUnit)
    (n : PixelUnit) :
    ((Unit.percentage p).as_pixel d).pixels = ⌊(d.pixels : ℚ) * p.percentage⌋₊ ∧
    (Unit.pixel n).as_pixel d = n ∧
    (Unit.percentage ⟨99/100⟩).as_pixel ⟨3⟩ = ⟨2⟩ := by
  refine ⟨?_, rfl, ?_⟩
  · simp [Unit.as_pixel, Int.floor_toNat]
  · simp [Unit.as_pixel]
    norm_num [Int.floor_eq_iff]
    decide

/-- C7: constructing a PercentageUnit from a float value succeeds exactly when
the value lies in the closed range [0, 1], storing the value unchanged; outside
that range it fails with a PercentageOutOfRange error carrying the offending
value. -/
theorem tryFrom_range (q : ℚ) :
    (0 ≤ q ∧ q ≤ 1 → PercentageUnit.tryFrom q = .ok ⟨q⟩) ∧
    (¬(0 ≤ q ∧ q ≤ 1) → PercentageUnit.tryFrom q = .error ⟨q⟩) := by
  constructor
  · intro h
    unfold PercentageUnit.tryFrom
    rw [if_pos h]
  · intro h
    unfold PercentageUnit.tryFrom
    rw [if_neg h]

/-- Witness for C7: 1/2 is accepted and stored unchanged; 2 is rejected with
the error carrying 2. -/
theorem tryFrom_range_witness :
    PercentageUnit.tryFrom (1/2) = .ok ⟨1/2⟩ ∧
    PercentageUnit.tryFrom 2 = .error ⟨2⟩ :=
  ⟨(tryFrom_range (1/2)).1 (by norm_num), (tryFrom_range 2).2 (by norm_num)⟩

/-- C8: the far corner per CropOrigin variant: Minimum resolves its coordinate
directly against (width, height), independently of the near corner; CropStart
adds its resolved coordinate to the near corner; Maximum subtracts its resolved
coordinate from (width, height), producing exactly that value whenever the
resolved insets are strictly smaller than the dimensions (otherwise the fatal
subtraction aborts instead, see the C4 theorem). -/
theorem as_pixel_coordinate_variants (nx ny w h : PixelUnit) (c : Coordinate) :
    (CropOrigin.minimum c).as_pixel_coordinate nx ny w h
      = some (c.x.as_pixel w, c.y.as_pixel h) ∧
    (CropOrigin.cropStart c).as_pixel_coordinate nx ny w h
      = some (⟨nx.pixels + (c.x.as_pixel w).pixels⟩,
              ⟨ny.pixels + (c.y.as_pixel h).pixels⟩) ∧
    ((c.x.as_pixel w).pixels < w.pixels → (c.y.as_pixel h).pixels < h.pixels →
      (CropOrigin.maximum c).as_pixel_coordinate nx ny w h
        = some (⟨w.pixels - (c.x.as_pixel w).pixels⟩,
                ⟨h.pixels - (c.y.as_pixel h).pixels⟩)) := by
  refine ⟨rfl, rfl, fun hx hy => ?_⟩
  simp [CropOrigin.as_pixel_coordinate, PixelUnit.sub, hx, hy]

/-- Witness for C8 on a 100×100 canvas with near corner (5,5) and pixel
coordinate (10,10): Minimum gives (10,10), CropStart gives (15,15), Maximum
gives (90,90) — matching the source's own unit tests. -/
theorem as_pixel_coordinate_variants_witness :
    (CropOrigin.minimum ⟨Unit.pixel ⟨10⟩, Unit.pixel ⟨10⟩⟩).as_pixel_coordinate
        ⟨5⟩ ⟨5⟩ ⟨100⟩ ⟨100⟩ = some (⟨10⟩, ⟨10⟩) ∧
    (CropOrigin.cropStart ⟨Unit.pixel ⟨10⟩, Unit.pixel ⟨10⟩⟩).as_pixel_coordinate
        ⟨5⟩ ⟨5⟩ ⟨100⟩ ⟨100⟩ = some (⟨15⟩, ⟨15⟩) ∧
    (CropOrigin.maximum ⟨Unit.pixel ⟨10⟩, Unit.pixel ⟨10⟩⟩).as_pixel_coordinate
        ⟨5⟩ ⟨5⟩ ⟨100⟩ ⟨100⟩ = some (⟨90⟩, ⟨90⟩) := by
  obtain ⟨h1, h2, h3⟩ :=
    as_pixel_coordinate_variants ⟨5⟩ ⟨5⟩ ⟨100⟩ ⟨100⟩ ⟨Unit.pixel ⟨10⟩, Unit.pixel ⟨10⟩⟩
  exact ⟨h1, h2, h3 (by decide) (by decide)⟩

/-- C1 (refuted — the code contradicts the spec's consistency requirement): the
axis-to-dimension mapping is NOT consistent between near and far corner.  On a
200×100 image, the identical percentage unit 50% resolves to 50 as the near
corner's x (Crop.process resolves from.x against the image HEIGHT 100) but to
100 as the Minimum far corner's x (resolved against the image WIDTH 200), and
the rectangle the crop produces is left = 50 with width = right − left = 50,
exhibiting right = 100 ≠ 50 = left for the same x specification. -/
theorem crop_near_far_axis_mismatch :
    (Unit.percentage ⟨1/2⟩).as_pixel ⟨100⟩ = ⟨50⟩ ∧
    (Unit.percentage ⟨1/2⟩).as_pixel ⟨200⟩ = ⟨100⟩ ∧
    (Crop.mk ⟨.percentage ⟨1/2⟩, .pixel ⟨0⟩⟩
        (.minimum ⟨.percentage ⟨1/2⟩, .pixel ⟨10⟩⟩)).process (.source 200 100)
      = .ok (.crop_imm (.source 200 100) 50 0 50 10) := by
  refine ⟨?_, ?_, ?_⟩
  · simp [Unit.as_pixel]
    norm_num
    decide
  · simp [Unit.as_pixel]
    norm_num
    decide
  · simp [Crop.process, CropOrigin.as_pixel_coordinate, Unit.as_pixel,
      DynamicImage.dimensions, PixelUnit.sub]
    norm_num
    decide

/-- Counterexample to C2: a crop whose resolved far corner EQUALS its near
corner passes the Step 3 validation (neither far.y < near.y nor far.x < near.x
holds) yet the subsequent PixelUnit subtraction 0 − 0 violates the
strictly-greater precondition, so the process hits the fatal assertion after
the validation passed. -/
theorem crop_equal_corners_fatal :
    (CropOrigin.minimum ⟨Unit.pixel ⟨0⟩, Unit.pixel ⟨0⟩⟩).as_pixel_coordinate
        ⟨0⟩ ⟨0⟩ ⟨100⟩ ⟨100⟩ = some (⟨0⟩, ⟨0⟩) ∧
    (Crop.mk ⟨.pixel ⟨0⟩, .pixel ⟨0⟩⟩
        (.minimum ⟨.pixel ⟨0⟩, .pixel ⟨0⟩⟩)).process (.source 100 100) = .fatal :=
  ⟨rfl, rfl⟩

/-- C2 (amended): the Step 3 validation only guarantees far ≥ near while the
PixelUnit subtraction precondition is strict; the subtractions are safe — and
the crop proceeds to the collaborator call — exactly when the resolved far
corner is STRICTLY greater than the near corner on both axes.  (When far
equals near on an axis the validation passes but the fatal assertion is
reached, see the counterexample.) -/
theorem crop_process_strict_safe (c : Crop) (img : DynamicImage)
    (right bottom : PixelUnit)
    (hres : c.to_.as_pixel_coordinate (c.from_.x.as_pixel ⟨img.dimensions.2⟩)
        (c.from_.y.as_pixel ⟨img.dimensions.1⟩) ⟨img.dimensions.1⟩
        ⟨img.dimensions.2⟩ = some (right, bottom))
    (hx : (c.from_.x.as_pixel ⟨img.dimensions.2⟩).pixels < right.pixels)
    (hy : (c.from_.y.as_pixel ⟨img.dimensions.1⟩).pixels < bottom.pixels) :
    c.process img
      = .ok (.crop_imm img (c.from_.x.as_pixel ⟨img.dimensions.2⟩).pixels
          (c.from_.y.as_pixel ⟨img.dimensions.1⟩).pixels
          (right.pixels - (c.from_.x.as_pixel ⟨img.dimensions.2⟩).pixels)
          (bottom.pixels - (c.from_.y.as_pixel ⟨img.dimensions.1⟩).pixels)) := by
  simp [Crop.process, hres, PixelUnit.sub, hx, hy, Nat.lt_asymm hx, Nat.lt_asymm hy]

/-- Witness for C2 (amended): near corner (5,5), Minimum far corner (10,10) on
a 100×100 image — strict on both axes — crops to the collaborator rectangle
(5, 5, 5, 5) with no fatal abort. -/
theorem crop_process_strict_safe_witness :
    (Crop.mk ⟨.pixel ⟨5⟩, .pixel ⟨5⟩⟩
        (.minimum ⟨.pixel ⟨10⟩, .pixel ⟨10⟩⟩)).process (.source 100 100)
      = .ok (.crop_imm (.source 100 100) 5 5 5 5) :=
  crop_process_strict_safe _ _ ⟨10⟩ ⟨10⟩ rfl (by decide) (by decide)

/-- C4: a Maximum far corner whose x inset equals the image width (100 px on a
100-wide image) aborts via the fatal PixelUnit subtraction already during far
corner resolution — the resolution itself produces no coordinate — so the Step
3 validation never runs and no OperationError is returned for this untrusted
configuration input. -/
theorem crop_maximum_inset_fatal :
    (CropOrigin.maximum ⟨Unit.pixel ⟨100⟩, Unit.pixel ⟨0⟩⟩).as_pixel_coordinate
        ⟨0⟩ ⟨0⟩ ⟨100⟩ ⟨100⟩ = none ∧
    (Crop.mk ⟨.pixel ⟨0⟩, .pixel ⟨0⟩⟩
        (.maximum ⟨.pixel ⟨100⟩, .pixel ⟨0⟩⟩)).process (.source 100 100) = .fatal :=
  ⟨rfl, rfl⟩

/-- C3: whenever the resolved far corner is strictly below the near corner on
some axis, Crop.process returns an OperationError that names the violated axis
and carries the operation's own parameters, and the pixel crop collaborator is
never invoked. -/
theorem crop_process_invalid_errors (c : Crop) (img : DynamicImage)
    (right bottom : PixelUnit)
    (hres : c.to_.as_pixel_coordinate (c.from_.x.as_pixel ⟨img.dimensions.2⟩)
        (c.from_.y.as_pixel ⟨img.dimensions.1⟩) ⟨img.dimensions.1⟩
        ⟨img.dimensions.2⟩ = some (right, bottom))
    (hviol : right.pixels < (c.from_.x.as_pixel ⟨img.dimensions.2⟩).pixels ∨
        bottom.pixels < (c.from_.y.as_pixel ⟨img.dimensions.1⟩).pixels) :
    (c.process img = .error (.bottomLtTop c) ∨
      c.process img = .error (.rightLtLeft c)) ∧
    ∀ i, c.process img ≠ .ok i := by
  by_cases hb : bottom.pixels < (c.from_.y.as_pixel ⟨img.dimensions.1⟩).pixels
  · refine ⟨.inl ?_, fun i => ?_⟩ <;> simp [Crop.process, hres, hb]
  · have hr : right.pixels < (c.from_.x.as_pixel ⟨img.dimensions.2⟩).pixels :=
      hviol.resolve_right hb
    refine ⟨.inr ?_, fun i => ?_⟩ <;> simp [Crop.process, hres, hb, hr]

/-- Witness for C3: near corner (5,5) with Minimum far corner (1,1) on a
100×100 image fails with the error naming the bottom/top axis and carrying the
crop's parameters. -/
theorem crop_process_invalid_errors_witness :
    (Crop.mk ⟨.pixel ⟨5⟩, .pixel ⟨5⟩⟩
        (.minimum ⟨.pixel ⟨1⟩, .pixel ⟨1⟩⟩)).process (.source 100 100)
      = .error (.bottomLtTop (Crop.mk ⟨.pixel ⟨5⟩, .pixel ⟨5⟩⟩
          (.minimum ⟨.pixel ⟨1⟩, .pixel ⟨1⟩⟩))) ∨
    (Crop.mk ⟨.pixel ⟨5⟩, .pixel ⟨5⟩⟩
        (.minimum ⟨.pixel ⟨1⟩, .pixel ⟨1⟩⟩)).process (.source 100 100)
      = .error (.rightLtLeft (Crop.mk ⟨.pixel ⟨5⟩, .pixel ⟨5⟩⟩
          (.minimum ⟨.pixel ⟨1⟩, .pixel ⟨1⟩⟩))) :=
  (crop_process_invalid_errors
    (Crop.mk ⟨.pixel ⟨5⟩, .pixel ⟨5⟩⟩ (.minimum ⟨.pixel ⟨1⟩, .pixel ⟨1⟩⟩))
    (.source 100 100) ⟨1⟩ ⟨1⟩ rfl (by decide)).1

/-- C5: the pipeline applies the operations strictly in list order, feeding
each step's output image to the next step; if a prefix succeeds producing an
intermediate image on which the next operation fails, the whole pipeline
returns exactly that operation's error and the remaining operations — an
arbitrary suffix — are never executed. -/
theorem pipeline_short_circuit (img img2 : DynamicImage)
    (pre post : List Operation) (op : Operation) (e : OperationError)
    (h1 : process_operations img pre = .ok img2)
    (h2 : op.process img2 = .error e) :
    process_operations img (pre ++ op :: post) = .error e := by
  induction pre generalizing img with
  | nil =>
    simp only [process_operations] at h1
    cases h1
    simp only [List.nil_append, process_operations, h2]
  | cons o rest ih =>
    simp only [List.cons_append, process_operations] at h1 ⊢
    cases hop : o.process img with
    | ok next =>
      rw [hop] at h1
      exact ih next h1
    | error e2 => rw [hop] at h1; cases h1
    | fatal => rw [hop] at h1; cases h1

/-- Witness for C5: the pipeline [Grayscale, Crop(invalid), Resize(10×10)] on
a 100×100 image returns the invalid crop's OperationError; the trailing Resize
is never executed (the result is independent of it). -/
theorem pipeline_short_circuit_witness :
    process_operations (.source 100 100)
      [.grayscale ⟨⟩,
       .crop (Crop.mk ⟨.pixel ⟨9⟩, .pixel ⟨9⟩⟩ (.minimum ⟨.pixel ⟨2⟩, .pixel ⟨2⟩⟩)),
       .resize (Resize.mk (.pixel ⟨10⟩) (.pixel ⟨10⟩) .nearest .exact)]
      = .error (.bottomLtTop
          (Crop.mk ⟨.pixel ⟨9⟩, .pixel ⟨9⟩⟩ (.minimum ⟨.pixel ⟨2⟩, .pixel ⟨2⟩⟩))) :=
  pipeline_short_circuit (.source 100 100) (.grayscale (.source 100 100))
    [.grayscale ⟨⟩]
    [.resize (Resize.mk (.pixel ⟨10⟩) (.pixel ⟨10⟩) .nearest .exact)]
    (.crop (Crop.mk ⟨.pixel ⟨9⟩, .pixel ⟨9⟩⟩ (.minimum ⟨.pixel ⟨2⟩, .pixel ⟨2⟩⟩)))
    _ rfl rfl

/-- C9: every non-Crop operation (AdjustBrightness in either direction, Blur,
Grayscale, Resize in every mode) returns a successful result on every image —
among the closed Operation set only the Crop variant can fail — and Resize
applies no internal guard to a resolved dimension of zero, passing 0 through
to the collaborator as-is. -/
theorem only_crop_can_fail (img : DynamicImage) :
    (∀ op : Operation, (∃ i, op.process img = .ok i) ∨ ∃ c, op = .crop c) ∧
    (∀ f : FilterType,
      (Resize.mk (.pixel ⟨0⟩) (.pixel ⟨0⟩) f .exact).process img
        = .ok (.resize_exact img 0 0 f)) := by
  constructor
  · intro op
    cases op with
    | adjustBrightness a => exact .inl ⟨_, rfl⟩
    | blur b => exact .inl ⟨_, rfl⟩
    | crop c => exact .inr ⟨c, rfl⟩
    | grayscale g => exact .inl ⟨_, rfl⟩
    | resize r => exact .inl ⟨_, rfl⟩
  · intro f
    rfl

/-- C10: Resize resolves its width unit against the image's width and its
height unit against the image's height, and crop_mode selects the collaborator
call — Preserve the aspect-preserving fit resize, Exact the exact non-uniform
resize, Fill the cover-then-crop resize — with the filter passed through
unchanged; in particular Exact on a 200×100 image with width 50% and height
50 px requests exactly 100×50. -/
theorem resize_process_spec (r : Resize) (img : DynamicImage) (f : FilterType) :
    r.process img = .ok (
      match r.crop_mode with
      | .preserve => .resize img (r.width.as_pixel ⟨img.dimensions.1⟩).pixels
          (r.height.as_pixel ⟨img.dimensions.2⟩).pixels r.filter
      | .exact => .resize_exact img (r.width.as_pixel ⟨img.dimensions.1⟩).pixels
          (r.height.as_pixel ⟨img.dimensions.2⟩).pixels r.filter
      | .fill => .resize_to_fill img (r.width.as_pixel ⟨img.dimensions.1⟩).pixels
          (r.height.as_pixel ⟨img.dimensions.2⟩).pixels r.filter) ∧
    (Resize.mk (.percentage ⟨1/2⟩) (.pixel ⟨50⟩) f .exact).process (.source 200 100)
      = .ok (.resize_exact (.source 200 100) 100 50 f) := by
  constructor
  · rfl
  · simp [Resize.process, Unit.as_pixel, DynamicImage.dimensions]
    norm_num
    decide

end Imageless
